import Mathlib

/-!
Shallow embedding of `ShootingGameCharacter.h` / `ShootingGameCharacter.cpp`
(class `AShootingGameCharacter` of the UnrealMeta2 repository).

Engine floats are modelled as rationals; engine object references as
`Option` of a small record carrying exactly the data this class observes.
Calls into external collaborators (weapon capabilities, the player state's
damage tracker, the HUD, the timer service, the multicast channel) are
recorded as events in an effect list; a null-pointer dereference is
modelled by an `Except.error`.
-/

/-- A controller reference. `IsValid(GetController())` is modelled as the
reference being `some`. -/
structure Controller where
  cid : Nat
deriving DecidableEq

/-- The object referenced by `EquipWeapon`. `hasWeaponInterface` says
whether `Cast<IWeaponInterface>` succeeds on it, `isAWeapon` whether
`Cast<AWeapon>` succeeds, and `canUse` is the answer its `IsCanUse`
capability reports.

Modelled from the spec: `WeaponInterface.h` / `Weapon.h` are not among the
sources; per the spec the equipped item's capability set is
`canUse() -> bool, trigger(), reload(), setOwner(owner)`, so the call
`Execute_IsCanUse(EquipWeapon, IsCanUse)` is taken to write the item's
can-use answer into its out-parameter. -/
structure WeaponItem where
  wid : Nat
  hasWeaponInterface : Bool
  isAWeapon : Bool
  canUse : Bool
deriving DecidableEq

/-- The object behind `GetPlayerState()`: `isShootingPS` says whether
`Cast<AShootingPlayerState>` succeeds, and `pendingKill` makes `IsValid`
fail even when the cast succeeds. `curHp` / `maxHp` are what
`GetCurHp()` / `GetMaxHp()` return at binding time. -/
structure PlayerStateObj where
  isShootingPS : Bool
  pendingKill : Bool
  curHp : ℚ
  maxHp : ℚ
deriving DecidableEq

/-- The character's mesh-component state this class reads or writes:
physics simulation flag, attachment to the root component, and the
relative location / rotation (pitch, yaw, roll). -/
structure Mesh where
  simulatePhysics : Bool
  attachedToRoot : Bool
  relLoc : ℚ × ℚ × ℚ
  relRot : ℚ × ℚ × ℚ
deriving DecidableEq

/-- The fields of `AShootingGameCharacter` the claims talk about, plus the
references the class reads. -/
structure CharState where
  IsRagdoll : Bool
  ControlPitch : ℚ
  EquipWeapon : Option WeaponItem
  mesh : Mesh
  controller : Option Controller
  playerState : Option PlayerStateObj
  boundHpDelegate : Bool
deriving DecidableEq

/-- Observable events emitted by the character's entry points: RPC sends,
capability calls on the equipped item, damage forwarding, mesh/physics
side effects, delegate subscription and timer (re)scheduling. -/
inductive Effect where
  | debugMsg
  | sendReqTrigger
  | sendReqC
  | sendReqReload
  | broadcastTrigger
  | broadcastToggleRagdoll
  | broadcastReload
  | isCanUseQueryOn (wid : Nat)
  | pressTriggerOn (wid : Nat)
  | pressReloadOn (wid : Nat)
  | notifyShootOn (wid : Nat)
  | setOwnerOn (wid : Nat)
  | ownCharOn (wid : Nat)
  | updateAmmoToHudOn (wid : Nat)
  | addDamage (amount : ℚ)
  | subscribeHpDelegate
  | setSimulatePhysics (b : Bool)
  | attachMeshToRoot
  | setRelLocRot (loc rot : ℚ × ℚ × ℚ)
  | scheduleRetrySetOwner
  | scheduleRetryBindPS
deriving DecidableEq

/-- A run that faults. The only fault this class can produce in the
modelled fragment is a null-pointer dereference. -/
inductive Crash where
  | nullDeref
deriving DecidableEq

/-- Model of `Cast<IWeaponInterface>(EquipWeapon)`: succeeds iff the reference is
non-null and the object implements the interface. -/
def castWeaponInterface (w : Option WeaponItem) : Option WeaponItem :=
  w.bind fun i => if i.hasWeaponInterface then some i else none

/-- Model of `Cast<AShootingPlayerState>(GetPlayerState())`: plain null/class
check, as used by `TakeDamage`. -/
def castShootingPS (o : Option PlayerStateObj) : Option PlayerStateObj :=
  o.bind fun p => if p.isShootingPS then some p else none

/-- Model of `IsValid(Cast<AShootingPlayerState>(GetPlayerState()))`, as used by
`BindPlayerState`: the cast must succeed and the object must not be
pending kill. -/
def isValidPS (o : Option PlayerStateObj) : Option PlayerStateObj :=
  (castShootingPS o).bind fun p => if p.pendingKill then none else some p

/-- Embeds `AShootingGameCharacter::Tick`: when `HasAuthority()` is true, write
the control rotation's pitch into `ControlPitch`; otherwise do nothing. -/
def Tick (st : CharState) (hasAuthority : Bool) (controlRotationPitch : ℚ) :
    CharState :=
  if hasAuthority = true then { st with ControlPitch := controlRotationPitch }
  else st

/-- Embeds `AShootingGameCharacter::TakeDamage`: formats a debug message that
dereferences `EventInstigator` (`EventInstigator->GetName()`) before any
guard, then forwards the damage amount to the player state's `AddDamage`
when the cast succeeds, and returns `0.0`. -/
def TakeDamage (st : CharState) (DamageAmount : ℚ)
    (EventInstigator : Option Controller) :
    Except Crash (CharState × ℚ × List Effect) :=
  match EventInstigator with
  | none => .error .nullDeref
  | some _ =>
    match castShootingPS st.playerState with
    | some _ => .ok (st, 0, [.debugMsg, .addDamage DamageAmount])
    | none => .ok (st, 0, [.debugMsg])

/-- Embeds `AShootingGameCharacter::DoRagdoll`: set the flag and enable physics
simulation on the mesh. -/
def DoRagdoll (st : CharState) : CharState × List Effect :=
  ({ st with
      IsRagdoll := true
      mesh := { st.mesh with simulatePhysics := true } },
   [.setSimulatePhysics true])

/-- Embeds `AShootingGameCharacter::DoGetup`: clear the flag, disable physics
simulation, re-attach the mesh to the root component and set the relative
pose to location `(0, 0, -97)` and rotation `(pitch 0, yaw 270, roll 0)`. -/
def DoGetup (st : CharState) : CharState × List Effect :=
  ({ st with
      IsRagdoll := false
      mesh :=
        { simulatePhysics := false
          attachedToRoot := true
          relLoc := (0, 0, -97)
          relRot := (0, 270, 0) } },
   [.setSimulatePhysics false, .attachMeshToRoot,
    .setRelLocRot (0, 0, -97) (0, 270, 0)])

/-- Embeds `AShootingGameCharacter::OnNotifyShoot`: guarded capability call
`NotifyShoot` on the equipped item. -/
def OnNotifyShoot (st : CharState) : CharState × List Effect :=
  match castWeaponInterface st.EquipWeapon with
  | some i => (st, [.notifyShootOn i.wid])
  | none => (st, [])

/-- Embeds `AShootingGameCharacter::OnUpdateHp_Implementation`: debug message,
then ragdoll when the reported current HP is `<= 0`. -/
def OnUpdateHp (st : CharState) (CurrentHp MaxHp : ℚ) :
    CharState × List Effect :=
  let _ := MaxHp
  if CurrentHp ≤ 0 then
    let r := DoRagdoll st
    (r.1, .debugMsg :: r.2)
  else (st, [.debugMsg])

/-- Embeds `AShootingGameCharacter::ResPressTrigger_Implementation`: guarded
capability call `PressTrigger` on the currently equipped item. -/
def ResPressTrigger (st : CharState) : CharState × List Effect :=
  match castWeaponInterface st.EquipWeapon with
  | some i => (st, [.pressTriggerOn i.wid])
  | none => (st, [])

/-- Embeds `AShootingGameCharacter::ReqPressTrigger_Implementation`, run on the
authority: if the weapon-interface cast succeeds, query `IsCanUse` and
silently return when it reports false; otherwise call `ResPressTrigger()`,
which both multicasts the response and executes it locally. -/
def ReqPressTrigger (st : CharState) : CharState × List Effect :=
  match castWeaponInterface st.EquipWeapon with
  | some i =>
    if i.canUse = false then (st, [.isCanUseQueryOn i.wid])
    else
      let r := ResPressTrigger st
      (r.1, .isCanUseQueryOn i.wid :: .broadcastTrigger :: r.2)
  | none =>
    let r := ResPressTrigger st
    (r.1, .broadcastTrigger :: r.2)

/-- Embeds `AShootingGameCharacter::ResPressC_Implementation`: get up when
currently ragdolled, else ragdoll. -/
def ResPressC (st : CharState) : CharState × List Effect :=
  if st.IsRagdoll then DoGetup st else DoRagdoll st

/-- Embeds `AShootingGameCharacter::ReqPressC_Implementation`, run on the
authority: unconditionally call `ResPressC()` (multicast plus local
execution). -/
def ReqPressC (st : CharState) : CharState × List Effect :=
  let r := ResPressC st
  (r.1, .broadcastToggleRagdoll :: r.2)

/-- Embeds `AShootingGameCharacter::ResPressReload_Implementation`: guarded
capability call `PressReload` on the currently equipped item. -/
def ResPressReload (st : CharState) : CharState × List Effect :=
  match castWeaponInterface st.EquipWeapon with
  | some i => (st, [.pressReloadOn i.wid])
  | none => (st, [])

/-- Embeds `AShootingGameCharacter::ReqPressReload_Implementation`, run on the
authority: unconditionally call `ResPressReload()`. -/
def ReqPressReload (st : CharState) : CharState × List Effect :=
  let r := ResPressReload st
  (r.1, .broadcastReload :: r.2)

/-- Embeds `AShootingGameCharacter::TestSetOwnerWeapon`: when the controller is
valid, emit the debug message and call `EquipWeapon->SetOwner(...)` — an
unguarded dereference of `EquipWeapon` — then, only under a successful
`Cast<AWeapon>`, set `OwnChar` and refresh the ammo display; when the
controller is not valid, schedule a single 100 ms retry. -/
def TestSetOwnerWeapon (st : CharState) : Except Crash (CharState × List Effect) :=
  match st.controller with
  | some _ =>
    match st.EquipWeapon with
    | none => .error .nullDeref
    | some i =>
      if i.isAWeapon then
        .ok (st, [.debugMsg, .setOwnerOn i.wid, .ownCharOn i.wid,
                  .updateAmmoToHudOn i.wid])
      else
        .ok (st, [.debugMsg, .setOwnerOn i.wid])
  | none => .ok (st, [.scheduleRetrySetOwner])

/-- Embeds `AShootingGameCharacter::SetEquipWeapon`: assign the reference, run
`TestSetOwnerWeapon`, and return the (new) reference. -/
def SetEquipWeapon (st : CharState) (Weapon : Option WeaponItem) :
    Except Crash (CharState × Option WeaponItem × List Effect) :=
  let st1 := { st with EquipWeapon := Weapon }
  match TestSetOwnerWeapon st1 with
  | .error e => .error e
  | .ok r => .ok (r.1, r.1.EquipWeapon, r.2)

/-- Embeds `AShootingGameCharacter::BindPlayerState`: when the player state is
valid, subscribe `OnUpdateHp` to its HP-update delegate and invoke
`OnUpdateHp` once with the current values; otherwise schedule a single
100 ms retry. -/
def BindPlayerState (st : CharState) : CharState × List Effect :=
  match isValidPS st.playerState with
  | some p =>
    let st1 := { st with boundHpDelegate := true }
    let r := OnUpdateHp st1 p.curHp p.maxHp
    (r.1, .subscribeHpDelegate :: r.2)
  | none => (st, [.scheduleRetryBindPS])

/-- Embeds `AShootingGameCharacter::BeginPlay`: calls `BindPlayerState`. -/
def BeginPlay (st : CharState) : CharState × List Effect :=
  BindPlayerState st

/-- Embeds `AShootingGameCharacter::PressTrigger`, run on the owning client:
sends the server RPC `ReqPressTrigger`. -/
def PressTrigger (st : CharState) : CharState × List Effect :=
  (st, [.sendReqTrigger])

/-- Embeds `AShootingGameCharacter::PressTestKey`, run on the owning client:
debug message, then sends the server RPC `ReqPressC`. -/
def PressTestKey (st : CharState) : CharState × List Effect :=
  (st, [.debugMsg, .sendReqC])

/-- Embeds `AShootingGameCharacter::PressReload`, run on the owning client:
sends the server RPC `ReqPressReload`. -/
def PressReload (st : CharState) : CharState × List Effect :=
  (st, [.sendReqReload])

/-- The entry points of the character, with the data each one reads from
the engine as parameters. Movement, camera and touch handlers only call
engine movement functions and touch none of the modelled fields. -/
inductive CharOp where
  | tick (hasAuthority : Bool) (controlRotationPitch : ℚ)
  | takeDamage (amount : ℚ) (instigator : Option Controller)
  | setEquipWeapon (w : Option WeaponItem)
  | onNotifyShoot
  | onUpdateHp (cur mx : ℚ)
  | doRagdoll
  | doGetup
  | reqPressTrigger
  | resPressTrigger
  | reqPressC
  | resPressC
  | reqPressReload
  | resPressReload
  | testSetOwnerWeapon
  | bindPlayerState
  | beginPlay
  | pressTrigger
  | pressTestKey
  | pressReload
  | moveForward (v : ℚ)
  | moveRight (v : ℚ)
  | turnAtRate (r : ℚ)
  | lookUpAtRate (r : ℚ)
  | touchStarted
  | touchStopped
  | onResetVR
deriving DecidableEq

/-- The state part of running one entry point. A run that faults on a
null dereference leaves the modelled fields as they were at the fault
(both faulting entry points fault before writing any modelled field;
`SetEquipWeapon` has already assigned the reference when
`TestSetOwnerWeapon` faults). -/
def stepState (op : CharOp) (st : CharState) : CharState :=
  match op with
  | .tick a p => Tick st a p
  | .takeDamage amt inst =>
    match TakeDamage st amt inst with
    | .ok r => r.1
    | .error _ => st
  | .setEquipWeapon w =>
    match SetEquipWeapon st w with
    | .ok r => r.1
    | .error _ => { st with EquipWeapon := w }
  | .onNotifyShoot => (OnNotifyShoot st).1
  | .onUpdateHp c m => (OnUpdateHp st c m).1
  | .doRagdoll => (DoRagdoll st).1
  | .doGetup => (DoGetup st).1
  | .reqPressTrigger => (ReqPressTrigger st).1
  | .resPressTrigger => (ResPressTrigger st).1
  | .reqPressC => (ReqPressC st).1
  | .resPressC => (ResPressC st).1
  | .reqPressReload => (ReqPressReload st).1
  | .resPressReload => (ResPressReload st).1
  | .testSetOwnerWeapon =>
    match TestSetOwnerWeapon st with
    | .ok r => r.1
    | .error _ => st
  | .bindPlayerState => (BindPlayerState st).1
  | .beginPlay => (BeginPlay st).1
  | .pressTrigger => (PressTrigger st).1
  | .pressTestKey => (PressTestKey st).1
  | .pressReload => (PressReload st).1
  | .moveForward _ => st
  | .moveRight _ => st
  | .turnAtRate _ => st
  | .lookUpAtRate _ => st
  | .touchStarted => st
  | .touchStopped => st
  | .onResetVR => st

/-- Number of effects in a list satisfying a predicate. -/
def countEff (p : Effect → Bool) (l : List Effect) : Nat :=
  (l.filter p).length

/-- Recognises the Trigger-response multicast event. -/
def isBroadcastTrigger : Effect → Bool
  | .broadcastTrigger => true
  | _ => false

/-- The items whose `PressTrigger` capability a run invoked. -/
def triggerTargets (l : List Effect) : List Nat :=
  l.filterMap fun e =>
    match e with
    | .pressTriggerOn w => some w
    | _ => none

/-- The items whose `PressReload` capability a run invoked. -/
def reloadTargets (l : List Effect) : List Nat :=
  l.filterMap fun e =>
    match e with
    | .pressReloadOn w => some w
    | _ => none

/-- Recognises the retry-scheduling event of `BindPlayerState`. -/
def isScheduleBindPS : Effect → Bool
  | .scheduleRetryBindPS => true
  | _ => false

/-- Recognises the delegate-subscription event of `BindPlayerState`. -/
def isSubscribeHp : Effect → Bool
  | .subscribeHpDelegate => true
  | _ => false

/-- Recognises the retry-scheduling event of `TestSetOwnerWeapon`. -/
def isScheduleSetOwner : Effect → Bool
  | .scheduleRetrySetOwner => true
  | _ => false

/-- Recognises the `SetOwner` call on the equipped item. -/
def isSetOwnerEff : Effect → Bool
  | .setOwnerOn _ => true
  | _ => false

/-- Handle `n` consecutive `ReqPressTrigger` RPCs on the authority,
returning the final state and how many Trigger-response multicasts were
sent. -/
def runTriggerRequests (st : CharState) : Nat → CharState × Nat
  | 0 => (st, 0)
  | n + 1 =>
    let r := ReqPressTrigger st
    let rest := runTriggerRequests r.1 n
    (rest.1, countEff isBroadcastTrigger r.2 + rest.2)

/-- Outcome of one deferred-binding check: either the one-time bind
action ran, or a single retry was scheduled. -/
inductive BindOutcome where
  | bound
  | scheduled
deriving DecidableEq

/-- The timer-driven retry loop shared by `BindPlayerState` and
`TestSetOwnerWeapon`: check `k` runs only while every earlier check
scheduled a retry; a successful check performs the bind and stops
rescheduling. `avail k` says whether the binding target is available at
the `k`-th check; `executedChecks avail n` lists the outcomes of the
checks that have run after `n` timer opportunities. -/
def executedChecks (avail : Nat → Bool) : Nat → List BindOutcome
  | 0 => []
  | n + 1 =>
    let prev := executedChecks avail n
    if BindOutcome.bound ∈ prev then prev
    else prev ++ [if avail n then BindOutcome.bound else BindOutcome.scheduled]

/-- A default character state: fresh spawn, nothing equipped, no
controller, no player state. -/
def st0 : CharState :=
  { IsRagdoll := false
    ControlPitch := 0
    EquipWeapon := none
    mesh :=
      { simulatePhysics := false
        attachedToRoot := true
        relLoc := (0, 0, 0)
        relRot := (0, 0, 0) }
    controller := none
    playerState := none
    boundHpDelegate := false }

/-! Helper lemmas -/

lemma resPressTrigger_fst (st : CharState) : (ResPressTrigger st).1 = st := by
  unfold ResPressTrigger
  cases h : castWeaponInterface st.EquipWeapon <;> simp

lemma reqPressTrigger_fst (st : CharState) : (ReqPressTrigger st).1 = st := by
  unfold ReqPressTrigger ResPressTrigger
  cases h : castWeaponInterface st.EquipWeapon <;> simp
  split <;> simp

lemma reqPressTrigger_none (st : CharState)
    (h : castWeaponInterface st.EquipWeapon = none) :
    ReqPressTrigger st = (st, [Effect.broadcastTrigger]) := by
  unfold ReqPressTrigger ResPressTrigger
  simp [h]

lemma reqPressTrigger_canUse (st : CharState) (i : WeaponItem)
    (h : castWeaponInterface st.EquipWeapon = some i) (hc : i.canUse = true) :
    ReqPressTrigger st =
      (st, [Effect.isCanUseQueryOn i.wid, Effect.broadcastTrigger,
            Effect.pressTriggerOn i.wid]) := by
  unfold ReqPressTrigger ResPressTrigger
  simp [h, hc]

lemma reqPressTrigger_cannotUse (st : CharState) (i : WeaponItem)
    (h : castWeaponInterface st.EquipWeapon = some i) (hc : i.canUse = false) :
    ReqPressTrigger st = (st, [Effect.isCanUseQueryOn i.wid]) := by
  unfold ReqPressTrigger
  simp [h, hc]

/-- C1: for every sequence of Trigger requests handled on the authority,
a Trigger response is multicast for each request exactly when, at
request-handling time, the weapon-interface cast fails (no usable
equipped item) or the item's can-use query reports true; when the item is
present and reports can-use false every request is silently dropped and
no response is ever sent, the state being unchanged throughout. -/
theorem trigger_response_iff (st : CharState) (n : Nat) :
    ((castWeaponInterface st.EquipWeapon = none ∨
        ∃ i, castWeaponInterface st.EquipWeapon = some i ∧ i.canUse = true) →
      runTriggerRequests st n = (st, n)) ∧
    (∀ i, castWeaponInterface st.EquipWeapon = some i → i.canUse = false →
      runTriggerRequests st n = (st, 0)) := by
  constructor
  · intro h
    induction n with
    | zero => rfl
    | succ n ih =>
      rcases h with hnone | ⟨i, hi, hc⟩
      · rw [runTriggerRequests]
        simp [reqPressTrigger_none st hnone, ih, countEff, isBroadcastTrigger,
          Nat.add_comm]
      · rw [runTriggerRequests]
        simp [reqPressTrigger_canUse st i hi hc, ih, countEff,
          isBroadcastTrigger, Nat.add_comm]
  · intro i hi hc
    induction n with
    | zero => rfl
    | succ n ih =>
      rw [runTriggerRequests]
      simp [reqPressTrigger_cannotUse st i hi hc, ih, countEff,
        isBroadcastTrigger]

/-- C1 witness: with no item equipped, three requests produce three
responses; with an item that cannot be used, none. -/
theorem trigger_response_iff_witness :
    runTriggerRequests st0 3 = (st0, 3) ∧
    runTriggerRequests { st0 with EquipWeapon := some ⟨7, true, true, false⟩ } 3 =
      ({ st0 with EquipWeapon := some ⟨7, true, true, false⟩ }, 0) :=
  ⟨(trigger_response_iff st0 3).1 (Or.inl rfl),
   (trigger_response_iff { st0 with EquipWeapon := some ⟨7, true, true, false⟩ } 3).2
     ⟨7, true, true, false⟩ rfl rfl⟩

/-- C4: handling two consecutive ToggleRagdoll responses returns the
ragdoll flag to its original value, for every starting state. -/
theorem toggleRagdoll_involution (st : CharState) :
    ((ResPressC (ResPressC st).1).1).IsRagdoll = st.IsRagdoll := by
  unfold ResPressC DoRagdoll DoGetup
  by_cases h : st.IsRagdoll <;> simp [h]

/-- C5: a ToggleRagdoll response on a ragdolled Actor clears the flag,
disables physics simulation and re-attaches the mesh to the root at
relative location `(0, 0, -97)` and rotation with yaw `270`; on a
non-ragdolled Actor it sets the flag and enables physics simulation. -/
theorem toggleRagdoll_branches (st : CharState) :
    (st.IsRagdoll = true →
      (ResPressC st).1.IsRagdoll = false ∧
      (ResPressC st).1.mesh.simulatePhysics = false ∧
      (ResPressC st).1.mesh.attachedToRoot = true ∧
      (ResPressC st).1.mesh.relLoc = (0, 0, -97) ∧
      (ResPressC st).1.mesh.relRot = (0, 270, 0)) ∧
    (st.IsRagdoll = false →
      (ResPressC st).1.IsRagdoll = true ∧
      (ResPressC st).1.mesh.simulatePhysics = true) := by
  unfold ResPressC DoGetup DoRagdoll
  by_cases h : st.IsRagdoll <;> simp [h]

/-- C5 witness: from the default state (not ragdolled) the response sets
the flag and enables physics; from the resulting ragdolled state it
clears the flag and restores the fixed pose. -/
theorem toggleRagdoll_branches_witness :
    ((ResPressC st0).1.IsRagdoll = true ∧
      (ResPressC st0).1.mesh.simulatePhysics = true) ∧
    ((ResPressC (ResPressC st0).1).1.IsRagdoll = false ∧
      (ResPressC (ResPressC st0).1).1.mesh.simulatePhysics = false ∧
      (ResPressC (ResPressC st0).1).1.mesh.attachedToRoot = true ∧
      (ResPressC (ResPressC st0).1).1.mesh.relLoc = (0, 0, -97) ∧
      (ResPressC (ResPressC st0).1).1.mesh.relRot = (0, 270, 0)) :=
  ⟨(toggleRagdoll_branches st0).2 rfl,
   (toggleRagdoll_branches (ResPressC st0).1).1 rfl⟩

/-- C6: when an item with the weapon interface is equipped at
response-handling time, a Trigger response invokes the trigger capability
exactly once and a Reload response the reload capability exactly once,
both on precisely that item. -/
theorem response_uses_current_item (st : CharState) (i : WeaponItem)
    (h : castWeaponInterface st.EquipWeapon = some i) :
    triggerTargets (ResPressTrigger st).2 = [i.wid] ∧
    reloadTargets (ResPressReload st).2 = [i.wid] := by
  unfold ResPressTrigger ResPressReload
  simp [h, triggerTargets, reloadTargets]

/-- C6 witness: a state holding weapon 4, reached by swapping out weapon
3 after the request was issued, has its responses call weapon 4. -/
theorem response_uses_current_item_witness :
    triggerTargets
      (ResPressTrigger { st0 with EquipWeapon := some ⟨4, true, true, true⟩ }).2 =
      [4] ∧
    reloadTargets
      (ResPressReload { st0 with EquipWeapon := some ⟨4, true, true, true⟩ }).2 =
      [4] :=
  response_uses_current_item { st0 with EquipWeapon := some ⟨4, true, true, true⟩ }
    ⟨4, true, true, true⟩ rfl

/-- C7: for every damage amount and (non-null) instigator, `TakeDamage`
returns `0.0`, leaves the Actor's state unchanged, and forwards exactly
the full damage amount to the player state's `AddDamage` when the
player-state cast succeeds — and performs no damage-add otherwise. -/
theorem takeDamage_forwards (st : CharState) (amt : ℚ) (c : Controller) :
    TakeDamage st amt (some c) =
      Except.ok (st, 0,
        if (castShootingPS st.playerState).isSome then
          [Effect.debugMsg, Effect.addDamage amt]
        else [Effect.debugMsg]) := by
  unfold TakeDamage
  cases h : castShootingPS st.playerState <;> simp [h]

/-- C10: `TakeDamage` dereferences its instigator argument before any
guard: every call with a null instigator faults with a null dereference,
and every call with a non-null instigator completes normally. -/
theorem takeDamage_null_instigator (st : CharState) (amt : ℚ) :
    TakeDamage st amt none = Except.error Crash.nullDeref ∧
    ∀ c : Controller, ∃ out, TakeDamage st amt (some c) = Except.ok out := by
  refine ⟨rfl, fun c => ?_⟩
  unfold TakeDamage
  cases h : castShootingPS st.playerState <;> simp [h]

lemma takeDamage_ok_fst (st : CharState) (amt : ℚ) (inst : Option Controller)
    (r : CharState × ℚ × List Effect) (h : TakeDamage st amt inst = .ok r) :
    r.1 = st := by
  unfold TakeDamage at h
  cases inst with
  | none => exact Except.noConfusion h
  | some c =>
    cases hps : castShootingPS st.playerState <;> rw [hps] at h <;>
      (injection h with h2; exact (congrArg Prod.fst h2).symm)

lemma testSetOwnerWeapon_ok_fst (st : CharState)
    (r : CharState × List Effect) (h : TestSetOwnerWeapon st = .ok r) :
    r.1 = st := by
  unfold TestSetOwnerWeapon at h
  cases hc : st.controller <;> rw [hc] at h
  · injection h with h2
    exact (congrArg Prod.fst h2).symm
  · cases hw : st.EquipWeapon <;> rw [hw] at h
    · exact Except.noConfusion h
    · rename_i i
      by_cases hA : i.isAWeapon = true <;> simp only [hA, if_true, if_false] at h <;>
        (injection h with h2; exact (congrArg Prod.fst h2).symm)

lemma setEquipWeapon_ok_fst (st : CharState) (w : Option WeaponItem)
    (r : CharState × Option WeaponItem × List Effect)
    (h : SetEquipWeapon st w = .ok r) :
    r.1 = { st with EquipWeapon := w } := by
  unfold SetEquipWeapon at h
  have h2 : (match TestSetOwnerWeapon { st with EquipWeapon := w } with
      | Except.error e => Except.error e
      | Except.ok r => Except.ok (r.1, r.1.EquipWeapon, r.2)) = Except.ok r := h
  cases hT : TestSetOwnerWeapon { st with EquipWeapon := w } <;> rw [hT] at h2
  · exact Except.noConfusion h2
  · rename_i r2
    injection h2 with h3
    rw [← h3]
    exact testSetOwnerWeapon_ok_fst _ r2 hT

lemma resPressReload_fst (st : CharState) : (ResPressReload st).1 = st := by
  unfold ResPressReload
  cases h : castWeaponInterface st.EquipWeapon <;> simp

lemma onNotifyShoot_fst (st : CharState) : (OnNotifyShoot st).1 = st := by
  unfold OnNotifyShoot
  cases h : castWeaponInterface st.EquipWeapon <;> simp

lemma resPressC_pitch (st : CharState) :
    (ResPressC st).1.ControlPitch = st.ControlPitch := by
  unfold ResPressC DoGetup DoRagdoll
  by_cases h : st.IsRagdoll <;> simp [h]

lemma onUpdateHp_pitch (st : CharState) (c m : ℚ) :
    (OnUpdateHp st c m).1.ControlPitch = st.ControlPitch := by
  unfold OnUpdateHp DoRagdoll
  by_cases h : c ≤ 0 <;> simp [h]

lemma bindPlayerState_pitch (st : CharState) :
    (BindPlayerState st).1.ControlPitch = st.ControlPitch := by
  unfold BindPlayerState
  cases h : isValidPS st.playerState <;> simp [onUpdateHp_pitch]

/-- Recognises the per-frame tick among the entry points. -/
def isTickOp : CharOp → Bool
  | .tick _ _ => true
  | _ => false

/-- C8: `ControlPitch` is written only by the tick running with
authority, where it receives the control rotation's pitch; the tick
without authority and every other entry point leave it unchanged. -/
theorem controlPitch_authority_only (st : CharState) :
    (∀ op, isTickOp op = false →
      (stepState op st).ControlPitch = st.ControlPitch) ∧
    (∀ p, (stepState (CharOp.tick false p) st).ControlPitch = st.ControlPitch) ∧
    (∀ p, (stepState (CharOp.tick true p) st).ControlPitch = p) := by
  refine ⟨fun op hop => ?_, fun p => by simp [stepState, Tick],
    fun p => by simp [stepState, Tick]⟩
  cases op with
  | tick a p => simp [isTickOp] at hop
  | takeDamage amt inst =>
    cases hT : TakeDamage st amt inst with
    | error e => simp [stepState, hT]
    | ok r => simp [stepState, hT, takeDamage_ok_fst st amt inst r hT]
  | setEquipWeapon w =>
    cases hT : SetEquipWeapon st w with
    | error e => simp [stepState, hT]
    | ok r => simp [stepState, hT, setEquipWeapon_ok_fst st w r hT]
  | testSetOwnerWeapon =>
    cases hT : TestSetOwnerWeapon st with
    | error e => simp [stepState, hT]
    | ok r => simp [stepState, hT, testSetOwnerWeapon_ok_fst st r hT]
  | onNotifyShoot => simp [stepState, onNotifyShoot_fst]
  | onUpdateHp c m => simp [stepState, onUpdateHp_pitch]
  | doRagdoll => simp [stepState, DoRagdoll]
  | doGetup => simp [stepState, DoGetup]
  | reqPressTrigger => simp [stepState, reqPressTrigger_fst]
  | resPressTrigger => simp [stepState, resPressTrigger_fst]
  | reqPressC => simp [stepState, ReqPressC, resPressC_pitch]
  | resPressC => simp [stepState, resPressC_pitch]
  | reqPressReload => simp [stepState, ReqPressReload, resPressReload_fst]
  | resPressReload => simp [stepState, resPressReload_fst]
  | bindPlayerState => simp [stepState, bindPlayerState_pitch]
  | beginPlay => simp [stepState, BeginPlay, bindPlayerState_pitch]
  | pressTrigger => simp [stepState, PressTrigger]
  | pressTestKey => simp [stepState, PressTestKey]
  | pressReload => simp [stepState, PressReload]
  | moveForward v => simp [stepState]
  | moveRight v => simp [stepState]
  | turnAtRate r => simp [stepState]
  | lookUpAtRate r => simp [stepState]
  | touchStarted => simp [stepState]
  | touchStopped => simp [stepState]
  | onResetVR => simp [stepState]

/-- C8 witness: at the default state, a non-tick entry point leaves the
pitch unchanged, the tick without authority leaves it unchanged, and the
tick with authority writes the rotation pitch `5`. -/
theorem controlPitch_authority_only_witness :
    (stepState CharOp.doRagdoll st0).ControlPitch = st0.ControlPitch ∧
    (stepState (CharOp.tick false 5) st0).ControlPitch = st0.ControlPitch ∧
    (stepState (CharOp.tick true 5) st0).ControlPitch = 5 :=
  ⟨(controlPitch_authority_only st0).1 CharOp.doRagdoll rfl,
   (controlPitch_authority_only st0).2.1 5,
   (controlPitch_authority_only st0).2.2 5⟩

/-- C2 counterexample: the HP-update handler — an entry point distinct
from the ToggleRagdoll request/response handlers and from the explicit
ragdoll / get-up actions — mutates the ragdoll flag: receiving an HP
report of `0` on a non-ragdolled Actor sets the flag. -/
theorem ragdoll_flag_changes_outside_toggle :
    st0.IsRagdoll = false ∧
    (stepState (CharOp.onUpdateHp 0 100) st0).IsRagdoll = true ∧
    CharOp.onUpdateHp 0 100 ≠ CharOp.resPressC ∧
    CharOp.onUpdateHp 0 100 ≠ CharOp.reqPressC ∧
    CharOp.onUpdateHp 0 100 ≠ CharOp.doRagdoll ∧
    CharOp.onUpdateHp 0 100 ≠ CharOp.doGetup := by
  refine ⟨rfl, ?_, by simp, by simp, by simp, by simp⟩
  simp [stepState, OnUpdateHp, DoRagdoll, st0]

/-- Entry points that can write the ragdoll flag: the explicit ragdoll /
get-up actions, the ToggleRagdoll request / response handlers, the
HP-update handler (it ragdolls on HP `<= 0`), and the player-state
binding (it invokes the HP-update handler once on success, also from
`BeginPlay`). -/
def ragdollMutator : CharOp → Bool
  | .resPressC => true
  | .reqPressC => true
  | .doRagdoll => true
  | .doGetup => true
  | .onUpdateHp _ _ => true
  | .bindPlayerState => true
  | .beginPlay => true
  | _ => false

/-- C2 amended: the ragdoll flag is written only inside the ragdoll and
get-up actions, which are reached from the ToggleRagdoll request and
response handlers and, additionally, from the HP-update handler when the
reported HP is `<= 0` (including the initial HP notification delivered
by the player-state binding); every other entry point leaves the flag
unchanged. -/
theorem ragdoll_flag_mutators (op : CharOp) (st : CharState)
    (h : (stepState op st).IsRagdoll ≠ st.IsRagdoll) :
    ragdollMutator op = true := by
  cases op with
  | tick a p => exact absurd (by simp [stepState, Tick]; split <;> rfl) h
  | takeDamage amt inst =>
    refine absurd ?_ h
    cases hT : TakeDamage st amt inst with
    | error e => simp [stepState, hT]
    | ok r => simp [stepState, hT, takeDamage_ok_fst st amt inst r hT]
  | setEquipWeapon w =>
    refine absurd ?_ h
    cases hT : SetEquipWeapon st w with
    | error e => simp [stepState, hT]
    | ok r => simp [stepState, hT, setEquipWeapon_ok_fst st w r hT]
  | testSetOwnerWeapon =>
    refine absurd ?_ h
    cases hT : TestSetOwnerWeapon st with
    | error e => simp [stepState, hT]
    | ok r => simp [stepState, hT, testSetOwnerWeapon_ok_fst st r hT]
  | onNotifyShoot => exact absurd (by simp [stepState, onNotifyShoot_fst]) h
  | reqPressTrigger => exact absurd (by simp [stepState, reqPressTrigger_fst]) h
  | resPressTrigger => exact absurd (by simp [stepState, resPressTrigger_fst]) h
  | reqPressReload =>
    exact absurd (by simp [stepState, ReqPressReload, resPressReload_fst]) h
  | resPressReload => exact absurd (by simp [stepState, resPressReload_fst]) h
  | pressTrigger => exact absurd (by simp [stepState, PressTrigger]) h
  | pressTestKey => exact absurd (by simp [stepState, PressTestKey]) h
  | pressReload => exact absurd (by simp [stepState, PressReload]) h
  | moveForward v => exact absurd (by simp [stepState]) h
  | moveRight v => exact absurd (by simp [stepState]) h
  | turnAtRate r => exact absurd (by simp [stepState]) h
  | lookUpAtRate r => exact absurd (by simp [stepState]) h
  | touchStarted => exact absurd (by simp [stepState]) h
  | touchStopped => exact absurd (by simp [stepState]) h
  | onResetVR => exact absurd (by simp [stepState]) h
  | _ => rfl

/-- C2 amended witness: the HP-update handler at HP `0` flips the flag
of the default state, and it is one of the listed mutators. -/
theorem ragdoll_flag_mutators_witness :
    ragdollMutator (CharOp.onUpdateHp 0 100) = true :=
  ragdoll_flag_mutators (CharOp.onUpdateHp 0 100) st0
    (by simp [stepState, OnUpdateHp, DoRagdoll, st0])

/-- A state whose controller is valid but with no equipped item. -/
def stCtl : CharState := { st0 with controller := some ⟨0⟩ }

/-- C3 counterexample: with a valid controller and a null equipped item,
`TestSetOwnerWeapon` dereferences the null `EquipWeapon` reference at the
`SetOwner` call — that call site is guarded only on the controller, not
on the item. -/
theorem setOwner_null_item_deref :
    TestSetOwnerWeapon stCtl = Except.error Crash.nullDeref := rfl

/-- C3 amended: the trigger, reload, can-use and shoot-notify call sites
are guarded by the weapon-interface cast and no-op when the item is
absent or lacks the capability, and the ammo-display refresh is guarded
by the `AWeapon` cast; the set-owner call site alone is guarded only on
the controller's validity and dereferences the equipped item
unconditionally, faulting when the item is null. -/
theorem equipped_item_call_guards (st : CharState) :
    (castWeaponInterface st.EquipWeapon = none →
      (OnNotifyShoot st).2 = [] ∧
      (ResPressTrigger st).2 = [] ∧
      (ResPressReload st).2 = [] ∧
      triggerTargets (ReqPressTrigger st).2 = []) ∧
    (∀ c, st.controller = some c → st.EquipWeapon = none →
      TestSetOwnerWeapon st = Except.error Crash.nullDeref) ∧
    (∀ c i, st.controller = some c → st.EquipWeapon = some i →
      i.isAWeapon = false →
      TestSetOwnerWeapon st =
        Except.ok (st, [Effect.debugMsg, Effect.setOwnerOn i.wid])) := by
  refine ⟨fun hcast => ?_, fun c hc hw => ?_, fun c i hc hw hA => ?_⟩
  · refine ⟨?_, ?_, ?_, ?_⟩
    · unfold OnNotifyShoot
      simp [hcast]
    · unfold ResPressTrigger
      simp [hcast]
    · unfold ResPressReload
      simp [hcast]
    · rw [reqPressTrigger_none st hcast]
      rfl
  · unfold TestSetOwnerWeapon
    rw [hc, hw]
  · unfold TestSetOwnerWeapon
    rw [hc, hw]
    simp [hA]

/-- C3 amended witness: at the default state (no item) the guarded sites
no-op, and at `stCtl` (valid controller, no item) the set-owner site
faults. -/
theorem equipped_item_call_guards_witness :
    (OnNotifyShoot st0).2 = [] ∧
    TestSetOwnerWeapon stCtl = Except.error Crash.nullDeref :=
  ⟨((equipped_item_call_guards st0).1 rfl).1,
   (equipped_item_call_guards stCtl).2.1 ⟨0⟩ rfl rfl⟩

lemma executedChecks_of_le (avail : Nat → Bool) (N : Nat)
    (hlt : ∀ k, k < N → avail k = false) :
    ∀ m, m ≤ N → executedChecks avail m = List.replicate m BindOutcome.scheduled := by
  intro m
  induction m with
  | zero => intro _; rfl
  | succ m ih =>
    intro hm
    have hmN : m < N := Nat.lt_of_succ_le hm
    have hprev := ih (Nat.le_of_lt hmN)
    rw [executedChecks, hprev, hlt m hmN]
    simp [List.mem_replicate, List.replicate_succ']

lemma executedChecks_of_gt (avail : Nat → Bool) (N : Nat)
    (hN : avail N = true) (hlt : ∀ k, k < N → avail k = false) :
    ∀ m, N < m →
      executedChecks avail m =
        List.replicate N BindOutcome.scheduled ++ [BindOutcome.bound] := by
  intro m
  induction m with
  | zero => omega
  | succ m ih =>
    intro hm
    rcases Nat.lt_or_ge N m with h | h
    · have hprev := ih h
      rw [executedChecks, hprev]
      simp
    · have hNm : m = N := by omega
      subst hNm
      have hprev := executedChecks_of_le avail m hlt m (Nat.le_refl m)
      rw [executedChecks, hprev, hN]
      simp [List.mem_replicate]

/-- C9: for either deferred binding, when the target becomes available at
exactly the `N`-th check, every check before `N` schedules exactly one
retry, the bind action runs exactly once, at check `N`, and no further
check runs or retry is scheduled afterwards; per check, the player-state
binding schedules exactly one retry and subscribes nothing while the
player state is unavailable and subscribes exactly once scheduling
nothing once it is available, and the weapon-owner binding schedules
exactly one retry while the controller is unavailable and performs the
set-owner call exactly once scheduling nothing once it is available. -/
theorem deferred_binding_retries (avail : Nat → Bool) (N : Nat)
    (hN : avail N = true) (hlt : ∀ k, k < N → avail k = false) :
    (∀ m, m ≤ N →
      executedChecks avail m = List.replicate m BindOutcome.scheduled) ∧
    (∀ m, N < m →
      executedChecks avail m =
        List.replicate N BindOutcome.scheduled ++ [BindOutcome.bound]) ∧
    (∀ st, isValidPS st.playerState = none →
      BindPlayerState st = (st, [Effect.scheduleRetryBindPS])) ∧
    (∀ st p, isValidPS st.playerState = some p →
      countEff isScheduleBindPS (BindPlayerState st).2 = 0 ∧
      countEff isSubscribeHp (BindPlayerState st).2 = 1) ∧
    (∀ st, st.controller = none →
      TestSetOwnerWeapon st = Except.ok (st, [Effect.scheduleRetrySetOwner])) ∧
    (∀ st c i, st.controller = some c → st.EquipWeapon = some i →
      ∃ effs, TestSetOwnerWeapon st = Except.ok (st, effs) ∧
        countEff isScheduleSetOwner effs = 0 ∧
        countEff isSetOwnerEff effs = 1) := by
  refine ⟨executedChecks_of_le avail N hlt,
    executedChecks_of_gt avail N hN hlt,
    fun st hv => ?_, fun st p hv => ?_, fun st hc => ?_,
    fun st c i hc hw => ?_⟩
  · unfold BindPlayerState
    rw [hv]
  · unfold BindPlayerState
    rw [hv]
    unfold OnUpdateHp DoRagdoll
    by_cases h : p.curHp ≤ 0 <;>
      simp [h, countEff, isScheduleBindPS, isSubscribeHp]
  · unfold TestSetOwnerWeapon
    rw [hc]
  · unfold TestSetOwnerWeapon
    rw [hc, hw]
    by_cases hA : i.isAWeapon = true <;>
      simp [hA, countEff, isScheduleSetOwner, isSetOwnerEff]

/-- C9 witness: with the target appearing at the second check (`N = 1`),
two timer opportunities yield one scheduled retry followed by the single
bind, and a concrete unavailable state schedules exactly one retry. -/
theorem deferred_binding_retries_witness :
    (executedChecks (fun k => k == 1) 2 =
      List.replicate 1 BindOutcome.scheduled ++ [BindOutcome.bound]) ∧
    BindPlayerState st0 = (st0, [Effect.scheduleRetryBindPS]) := by
  have h := deferred_binding_retries (fun k => k == 1) 1 rfl
    (fun k hk => by
      have h0 : k = 0 := Nat.lt_one_iff.mp hk
      subst h0
      rfl)
  exact ⟨h.2.1 2 (by omega), h.2.2.1 st0 rfl⟩
